import Mathlib

/-!
Verification of the whiptail-tui dialog layer.

This file gives a shallow embedding of the pure/observable core of the
repository (files whiptail_base.py and whiptail_box.py):

* `Response`, the return-code constants and the box-kind list;
* the common option attributes and `build_whiptail_args`;
* default height/width resolution from the terminal geometry;
* the constructors of the concrete box classes, modelled as `Except`-valued
  functions (a Python `raise` becomes `Except.error`);
* the positive-event handlers, modelled as effect traces;
* the gauge box's `update_percent` and `listen`, modelled as a state
  transition on a write-event log and an action trace respectively.

Machine integers are modelled as `Int` (Python integers are unbounded),
strings as Lean `String`.
-/

namespace WhiptailTui

/-- Embeds the module-level list `whiptail_box_name_list` of
whiptail_base.py: the ten known box kinds. -/
def whiptail_box_name_list : List String :=
  ["msgbox", "yesno", "infobox", "inputbox", "passwordbox",
   "textbox", "menu", "checklist", "radiolist", "gauge"]

/-- `POSITIVE_RETURN_CODE` from whiptail_base.py. -/
def POSITIVE_RETURN_CODE : Int := 0

/-- `NEGATIVE_RETURN_CODE` from whiptail_base.py. -/
def NEGATIVE_RETURN_CODE : Int := 1

/-- `ESC_RETURN_CODE` from whiptail_base.py. -/
def ESC_RETURN_CODE : Int := 255

/-- Embeds the namedtuple `Response(returncode, value)` of whiptail_base.py.
The bytes-to-UTF-8 decoding branch of `Response.__new__` is outside the
model: the payload is already a decoded string here. -/
structure Response where
  returncode : Int
  value : String
deriving DecidableEq, Repr

/-- The hook a call to `WhiptailBase.show` dispatches to, according to the
child's return code: `on_positive_event_triggered(value)`,
`on_negative_event_triggered()` or `on_esc_event_triggered()`. -/
inductive HookCall where
  | onPositive (value : String)
  | onNegative
  | onEsc
deriving DecidableEq, Repr

/-- Embeds the dispatch of `WhiptailBase.show` (whiptail_base.py lines
219-232): return code 0 calls the positive hook with the captured value,
1 the negative hook, 255 the esc hook, and any other code raises
`Exception(f"unexpected Response return code {...}")`, modelled as
`Except.error` carrying the message. -/
def show_dispatch (response : Response) : Except String HookCall :=
  if response.returncode = POSITIVE_RETURN_CODE then
    Except.ok (HookCall.onPositive response.value)
  else if response.returncode = NEGATIVE_RETURN_CODE then
    Except.ok HookCall.onNegative
  else if response.returncode = ESC_RETURN_CODE then
    Except.ok HookCall.onEsc
  else
    Except.error ("unexpected Response return code " ++ toString response.returncode)

/-- Embeds the common option attributes of `WhiptailBase.__init__`
(whiptail_base.py lines 96-111), in source declaration order. -/
structure WhiptailAttrs where
  clear_on_exit : Bool
  default_no : Bool
  default_item : Option String
  full_buttons : Bool
  no_cancel : Bool
  yes_button : Option String
  no_button : Option String
  ok_button : Option String
  cancel_button : Option String
  no_item : Bool
  no_tags : Bool
  separate_output : Bool
  title : Option String
  backtitle : Option String
  scrolltext : Bool
  topleft : Bool
deriving DecidableEq, Repr

/-- The attribute values `WhiptailBase.__init__` starts from: every flag
`False`, every string option `None`. -/
def initAttrs : WhiptailAttrs :=
  { clear_on_exit := false, default_no := false, default_item := none,
    full_buttons := false, no_cancel := false, yes_button := none,
    no_button := none, ok_button := none, cancel_button := none,
    no_item := false, no_tags := false, separate_output := false,
    title := none, backtitle := none, scrolltext := false, topleft := false }

/-- Embeds one step `if attr: whiptail_args.append(flag)` of
`build_whiptail_args`. -/
def addFlag (attr : Bool) (flag : String) (whiptail_args : List String) : List String :=
  if attr then whiptail_args ++ [flag] else whiptail_args

/-- Embeds one step `if attr is not None: whiptail_args += [flag, attr]` of
`build_whiptail_args`. -/
def addOpt (attr : Option String) (flag : String) (whiptail_args : List String) : List String :=
  match attr with
  | some v => whiptail_args ++ [flag, v]
  | none => whiptail_args

/-- Embeds `WhiptailBase.build_whiptail_args` (whiptail_base.py lines
153-192): starting from the empty list, the nine boolean flags are appended
in source order, then the seven value-bearing options, each as the flag
string followed by its verbatim value. -/
def build_whiptail_args (a : WhiptailAttrs) : List String :=
  let whiptail_args : List String := []
  let whiptail_args := addFlag a.clear_on_exit "--clear" whiptail_args
  let whiptail_args := addFlag a.default_no "--defaultno" whiptail_args
  let whiptail_args := addFlag a.full_buttons "--fullbuttons" whiptail_args
  let whiptail_args := addFlag a.no_cancel "--nocancel" whiptail_args
  let whiptail_args := addFlag a.no_item "--noitem" whiptail_args
  let whiptail_args := addFlag a.no_tags "--notags" whiptail_args
  let whiptail_args := addFlag a.separate_output "--separate-output" whiptail_args
  let whiptail_args := addFlag a.scrolltext "--scrolltext" whiptail_args
  let whiptail_args := addFlag a.topleft "--topleft" whiptail_args
  let whiptail_args := addOpt a.default_item "--default-item" whiptail_args
  let whiptail_args := addOpt a.yes_button "--yes-button" whiptail_args
  let whiptail_args := addOpt a.no_button "--no-button" whiptail_args
  let whiptail_args := addOpt a.ok_button "--ok-button" whiptail_args
  let whiptail_args := addOpt a.cancel_button "--cancel-button" whiptail_args
  let whiptail_args := addOpt a.title "--title" whiptail_args
  let whiptail_args := addOpt a.backtitle "--backtitle" whiptail_args
  whiptail_args

/-- The contribution of one boolean flag to the spec-side argument vector:
nothing when the flag is off. -/
def flagArg (attr : Bool) (flag : String) : List String :=
  if attr then [flag] else []

/-- The contribution of one value-bearing option to the spec-side argument
vector: nothing when the option is absent, otherwise the flag followed by
the verbatim value. -/
def optArg (attr : Option String) (flag : String) : List String :=
  match attr with
  | some v => [flag, v]
  | none => []

/-- Modelled from the spec's words (ArgumentBuilder ordering contract):
boolean flags first in the declared order clear, default-no, full-buttons,
no-cancel, no-item, no-tags, separate-output, scrolltext, topleft, then the
value-bearing options default-item, yes-button, no-button, ok-button,
cancel-button, title, backtitle, omitting every absent or false option. -/
def build_whiptail_args_spec (a : WhiptailAttrs) : List String :=
  flagArg a.clear_on_exit "--clear" ++
  flagArg a.default_no "--defaultno" ++
  flagArg a.full_buttons "--fullbuttons" ++
  flagArg a.no_cancel "--nocancel" ++
  flagArg a.no_item "--noitem" ++
  flagArg a.no_tags "--notags" ++
  flagArg a.separate_output "--separate-output" ++
  flagArg a.scrolltext "--scrolltext" ++
  flagArg a.topleft "--topleft" ++
  optArg a.default_item "--default-item" ++
  optArg a.yes_button "--yes-button" ++
  optArg a.no_button "--no-button" ++
  optArg a.ok_button "--ok-button" ++
  optArg a.cancel_button "--cancel-button" ++
  optArg a.title "--title" ++
  optArg a.backtitle "--backtitle"

/-- The terminal geometry returned by `shutil.get_terminal_size()`:
a `(columns, lines)` pair. -/
structure TermSize where
  columns : Int
  lines : Int
deriving DecidableEq, Repr

/-- Embeds `WhiptailBase.get_default_height` (whiptail_base.py lines
128-135): take the terminal line count, subtract the 2-row margin, then
round down to a multiple of 5 by subtracting the remainder. -/
def get_default_height (ts : TermSize) : Int :=
  let height := ts.lines - 2
  height - height % 5

/-- Embeds `WhiptailBase.get_default_width` (whiptail_base.py lines
137-144). The source reads width from the terminal, subtracts 2, and then
executes the statement rendered in the source as the misspelled
augmented assignment of the remainder to an undefined name, which raises
`NameError` before the function can return. The two statements executed
before the raise have no observable effect, so the call is modelled as the
error alone. -/
def get_default_width (_ts : TermSize) : Except String Int :=
  Except.error "NameError: name hewidthight is not defined"

/-- The box/text/height/width attributes a successful
`WhiptailBase.__init__` leaves behind (the option attributes it also sets
are `initAttrs` and are modelled separately by `WhiptailAttrs`). -/
structure WhiptailBaseState where
  box : String
  text : String
  height : Int
  width : Int
deriving DecidableEq, Repr

/-- Embeds `WhiptailBase.__init__` (whiptail_base.py lines 94-126): store
box/text/height/width, raise for a box name outside
`whiptail_box_name_list`, then resolve a `None` height via
`get_default_height` and a `None` width via `get_default_width` (which
always raises, see above). -/
def whiptailBase_init (box text : String) (height width : Option Int)
    (ts : TermSize) : Except String WhiptailBaseState :=
  if whiptail_box_name_list.contains box = false then
    Except.error ("invalid whiptail box name: " ++ box)
  else
    let h := match height with
      | some v => v
      | none => get_default_height ts
    match width with
    | some w => Except.ok { box := box, text := text, height := h, width := w }
    | none =>
      match get_default_width ts with
      | Except.ok w => Except.ok { box := box, text := text, height := h, width := w }
      | Except.error e => Except.error e

/-- Embeds `WhiptailMenuItem` (whiptail_box.py lines 142-163). The opaque
`data` payload and the `on_selected` callback take no part in the
construction logic verified here and are omitted. -/
structure WhiptailMenuItem where
  key : String
  description : String
deriving DecidableEq, Repr

/-- The state a successful `WhiptailMenuBox.__init__` leaves behind.
The source attribute named by the p-word reserved in Lean is called `pfx`
here. `description` is declared `str` in the source but defaulted to
`False` and only ever used as a truth value, so it is modelled as `Bool`. -/
structure MenuBoxState where
  box : String
  text : String
  height : Int
  width : Int
  pfx : String
  description : Bool
  items : List WhiptailMenuItem
  box_extra_args : List String
deriving DecidableEq, Repr

/-- Embeds the `menu_item_args` construction of `WhiptailMenuBox.__init__`
(whiptail_box.py lines 204-206): per item the pair of its key and, when
descriptions are enabled, the formatted `"{pfx} {description}"` string,
otherwise the empty string; then flattened. -/
def menu_item_pair_args (pfx : String) (description : Bool)
    (items : List WhiptailMenuItem) : List String :=
  let menu_item_args := items.map (fun item =>
    (item.key, if description then pfx ++ " " ++ item.description else ""))
  (menu_item_args.map (fun p => [p.1, p.2])).flatten

/-- Embeds `WhiptailMenuBox.__init__` (whiptail_box.py lines 186-207):
base construction with box `'menu'`, then the duplicate-key check
`len(set(keys)) != len(items)`, then the trailing arguments: the default
list height (box height minus 10) followed by the flattened key/label
pairs. -/
def whiptailMenuBox_init (message : String) (height width : Option Int)
    (pfx : String) (description : Bool) (items : List WhiptailMenuItem)
    (ts : TermSize) : Except String MenuBoxState :=
  match whiptailBase_init "menu" message height width ts with
  | Except.error e => Except.error e
  | Except.ok base =>
    if ((items.map (fun item => item.key)).dedup.length ≠ items.length) then
      Except.error "menu items must have unique key!"
    else
      Except.ok { box := base.box, text := base.text, height := base.height,
                  width := base.width, pfx := pfx, description := description,
                  items := items,
                  box_extra_args :=
                    toString (base.height - 10) :: menu_item_pair_args pfx description items }

/-- Embeds `WhiptailSelectItem` (whiptail_box.py lines 293-309). -/
structure WhiptailSelectItem where
  key : String
  description : String
  selected : Bool
deriving DecidableEq, Repr

/-- Embeds `WhiptailSelectItem.__init__` (whiptail_box.py lines 303-309):
the constructor takes only a key and a description and always sets
`selected` to `False`. -/
def whiptailSelectItem_init (key : String) (description : String) : WhiptailSelectItem :=
  { key := key, description := description, selected := false }

/-- The per-item triples built by `WhiptailCheckListBox.__init__` and
`WhiptailRadioListBox.__init__` before flattening (whiptail_box.py lines
343-345 and 395-397): key, formatted label, and the status string
`"ON"`/`"OFF"` from the item's `selected` flag. -/
def select_item_triples (pfx : String) (description : Bool)
    (items : List WhiptailSelectItem) : List (String × String × String) :=
  items.map (fun item =>
    (item.key,
     if description then pfx ++ " " ++ item.description else "",
     if item.selected then "ON" else "OFF"))

/-- The flattened key/label/status trailing arguments of the checklist and
radiolist boxes. -/
def select_item_args (pfx : String) (description : Bool)
    (items : List WhiptailSelectItem) : List String :=
  ((select_item_triples pfx description items).map (fun t => [t.1, t.2.1, t.2.2])).flatten

/-- The state a successful checklist/radiolist construction leaves behind. -/
structure SelectListState where
  box : String
  text : String
  height : Int
  width : Int
  pfx : String
  description : Bool
  items : List WhiptailSelectItem
  box_extra_args : List String
deriving DecidableEq, Repr

/-- Embeds `WhiptailCheckListBox.__init__` (whiptail_box.py lines 323-347):
base construction with box `'checklist'`, duplicate-key check, then the
trailing arguments: default list height followed by the flattened
key/label/status triples. -/
def whiptailCheckListBox_init (message : String) (height width : Option Int)
    (pfx : String) (description : Bool) (items : List WhiptailSelectItem)
    (ts : TermSize) : Except String SelectListState :=
  match whiptailBase_init "checklist" message height width ts with
  | Except.error e => Except.error e
  | Except.ok base =>
    if ((items.map (fun item => item.key)).dedup.length ≠ items.length) then
      Except.error "checkbox list items must have unique key!"
    else
      Except.ok { box := base.box, text := base.text, height := base.height,
                  width := base.width, pfx := pfx, description := description,
                  items := items,
                  box_extra_args :=
                    toString (base.height - 10) :: select_item_args pfx description items }

/-- Embeds `WhiptailRadioListBox.__init__` (whiptail_box.py lines 375-399):
identical to the checklist constructor but with box `'radiolist'` and its
own duplicate-key error message. -/
def whiptailRadioListBox_init (message : String) (height width : Option Int)
    (pfx : String) (description : Bool) (items : List WhiptailSelectItem)
    (ts : TermSize) : Except String SelectListState :=
  match whiptailBase_init "radiolist" message height width ts with
  | Except.error e => Except.error e
  | Except.ok base =>
    if ((items.map (fun item => item.key)).dedup.length ≠ items.length) then
      Except.error "radiolist list items must have unique key!"
    else
      Except.ok { box := base.box, text := base.text, height := base.height,
                  width := base.width, pfx := pfx, description := description,
                  items := items,
                  box_extra_args :=
                    toString (base.height - 10) :: select_item_args pfx description items }

/-- Embeds the regular-expression scan performed by
`WhiptailCheckListBox.on_positive_event_triggered` (whiptail_box.py line
353), which collects every group matched by the pattern quote,
any run of non-quote characters, quote — scanning left to right,
non-overlapping. The accumulator is `none` outside a quoted segment and
`some acc` while inside one; a segment left open at the end of the input
matches nothing. -/
def findall_quoted_aux : List Char → Option (List Char) → List String
  | [], _ => []
  | c :: rest, none =>
    if c = '"' then findall_quoted_aux rest (some [])
    else findall_quoted_aux rest none
  | c :: rest, some acc =>
    if c = '"' then String.mk acc :: findall_quoted_aux rest none
    else findall_quoted_aux rest (some (acc ++ [c]))

/-- The selected-key sequence the checklist extracts from a positive
payload: all double-quote-delimited substrings, in order. -/
def findall_quoted (value : String) : List String :=
  findall_quoted_aux value.data none

/-- The observable effects of `WhiptailInputBox.on_positive_event_triggered`. -/
inductive InputEffect where
  /-- A `WhiptailMessageBox(message, height, width).show()` displaying the
  configured error message. -/
  | showMessageBox (message : String) (height width : Int)
  /-- `self.refresh()`, which re-shows the same input request. -/
  | refresh
  /-- `self.on_submit(value)`. -/
  | submit (value : String)
deriving DecidableEq, Repr

/-- The attributes of a `WhiptailInputBox` the positive handler reads. -/
structure InputBoxState where
  height : Int
  width : Int
  validator : String → Bool
  error_message : String

/-- Embeds `WhiptailInputBox.on_positive_event_triggered` (whiptail_box.py
lines 271-284) as its effect trace: when the validator rejects the payload
an error message box is shown and the input request re-shown, and in every
case `on_submit` is then called with the payload. -/
def inputBox_on_positive_event_triggered (b : InputBoxState) (value : String) :
    List InputEffect :=
  (if b.validator value then []
   else [InputEffect.showMessageBox b.error_message b.height b.width,
         InputEffect.refresh]) ++
  [InputEffect.submit value]

/-- Embeds Python str.strip() as used throughout the form box: remove
leading and trailing whitespace characters. (CPython also strips a few
exotic unicode whitespace code points that `Char.isWhitespace` does not
cover; the strings involved here are ASCII.) -/
def py_strip (s : String) : String :=
  String.mk (((s.data.dropWhile Char.isWhitespace).reverse.dropWhile
    Char.isWhitespace).reverse)

/-- Embeds `WhiptailFormItem` (whiptail_box.py lines 415-437). -/
structure WhiptailFormItem where
  key : String
  name : String
  password : Bool
  value : String
  validator : String → Bool
  error_message : String

/-- The state of a `WhiptailFormBox`. -/
structure FormBoxState where
  text : String
  height : Int
  width : Int
  pfx : String
  items : List WhiptailFormItem
  submit_button : String
  box_extra_args : List String

/-- Embeds the `menu_item_args` construction shared by
`WhiptailFormBox.__init__` and `WhiptailFormBox.refresh` (whiptail_box.py
lines 467-471 and 476-480): per item the pair of its key and its value,
the value masked as a star per character when the item is a password;
each value is then formatted as `"{pfx} {value}"`; a sentinel pair of the
empty key and the bracketed submit label is appended; the pairs are
flattened. -/
def form_menu_item_args (f : FormBoxState) : List String :=
  let menu_item_args := f.items.map (fun item =>
    (item.key,
     if item.password then String.mk (List.replicate item.value.length '*')
     else item.value))
  let menu_item_args := menu_item_args.map (fun p => (p.1, f.pfx ++ " " ++ p.2))
  let menu_item_args := menu_item_args ++ [("", "[" ++ f.submit_button ++ "]")]
  (menu_item_args.map (fun p => [p.1, p.2])).flatten

/-- The full trailing-argument vector `WhiptailFormBox.refresh` rebuilds
(whiptail_box.py lines 474-481): the default list height followed by
`form_menu_item_args`. `WhiptailFormBox.__init__` builds the same vector. -/
def formBox_refresh_args (f : FormBoxState) : List String :=
  toString (f.height - 10) :: form_menu_item_args f

/-- Embeds the mutation `item.value = response.value` performed on the
first item of the list whose key matches. -/
def set_item_value : List WhiptailFormItem → String → String → List WhiptailFormItem
  | [], _, _ => []
  | item :: rest, key, newValue =>
    if item.key = key then { item with value := newValue } :: rest
    else item :: set_item_value rest key newValue

/-- The observable effects of `WhiptailFormBox.on_positive_event_triggered`. -/
inductive FormEffect where
  /-- `self.on_submit(form_data)` with the collected name/value records. -/
  | submitForm (data : List (String × String))
  /-- The `WhiptailInputBox(...).show()` opened to edit one field, with the
  construction arguments the source passes: message, height, width,
  placeholder, password, validator, error_message. -/
  | showInputBox (message : String) (height width : Int) (placeholder : String)
      (password : Bool) (validator : String → Bool) (error_message : String)
  /-- The `item.value = response.value` mutation. -/
  | setItemValue (key value : String)
  /-- `self.refresh()`: the rebuilt trailing arguments followed by a
  re-show of the menu. -/
  | refreshShow (box_extra_args : List String)

/-- Embeds `WhiptailFormBox.on_positive_event_triggered` (whiptail_box.py
lines 485-509) as its effect trace plus resulting state. The response of
the inner input dialog is an oracle parameter `inner`, consulted exactly
where the source reads `response.returncode`/`response.value`. The empty
selected key collects the trimmed name/value records and submits; a
matching key opens the edit input box seeded with the trimmed current
value, overwrites the value on the inner positive outcome, and refreshes;
a non-empty key with no match raises. -/
def formBox_on_positive_event_triggered (f : FormBoxState) (value : String)
    (inner : Response) : Except String (List FormEffect × FormBoxState) :=
  if value = "" then
    Except.ok
      ([FormEffect.submitForm (f.items.map (fun item => (item.name, py_strip item.value)))], f)
  else
    match f.items.find? (fun item => item.key == value) with
    | some item =>
      let updated := if inner.returncode = POSITIVE_RETURN_CODE then
          { f with items := set_item_value f.items item.key inner.value }
        else f
      Except.ok
        ([FormEffect.showInputBox item.key f.height f.width (py_strip item.value)
            item.password item.validator item.error_message] ++
         (if inner.returncode = POSITIVE_RETURN_CODE then
            [FormEffect.setItemValue item.key inner.value]
          else []) ++
         [FormEffect.refreshShow (formBox_refresh_args updated)],
         { updated with box_extra_args := formBox_refresh_args updated })
    | none => Except.error ("unknown form key: " ++ value)

/-- Embeds `WhiptailFormBox.__init__` (whiptail_box.py lines 447-472):
base construction with box `'menu'`, the duplicate-key check (whose error
message the source copied from the radiolist), then the trailing arguments
built exactly as `refresh` rebuilds them. -/
def whiptailFormBox_init (message : String) (height width : Option Int)
    (items : List WhiptailFormItem) (submit_button : String)
    (ts : TermSize) : Except String FormBoxState :=
  match whiptailBase_init "menu" message height width ts with
  | Except.error e => Except.error e
  | Except.ok base =>
    if ((items.map (fun item => item.key)).dedup.length ≠ items.length) then
      Except.error "radiolist list items must have unique key!"
    else
      let st : FormBoxState :=
        { text := base.text, height := base.height, width := base.width,
          pfx := "-", items := items, submit_button := submit_button,
          box_extra_args := [] }
      Except.ok { st with box_extra_args := formBox_refresh_args st }

/-- One write-side event on the gauge child's input stream. -/
inductive StdinEvent where
  | write (s : String)
  | flushStream
deriving DecidableEq, Repr

/-- The state of a `WhiptailGaugeBox`, with the log of events performed on
the child's input stream. -/
structure GaugeState where
  text : String
  height : Int
  width : Int
  percent : Int
  box_extra_args : List String
  stdin_events : List StdinEvent
deriving DecidableEq, Repr

/-- Embeds `WhiptailGaugeBox.__init__` (whiptail_box.py lines 522-533):
base construction with box `'gauge'`, store the percent, raise only when
the percent exceeds 100, then set the trailing arguments to the percent
string. -/
def whiptailGaugeBox_init (message : String) (height width : Option Int)
    (percent : Int) (ts : TermSize) : Except String GaugeState :=
  match whiptailBase_init "gauge" message height width ts with
  | Except.error e => Except.error e
  | Except.ok base =>
    if percent > 100 then
      Except.error ("gauge percent greater than 100! (" ++ toString percent ++ ")")
    else
      Except.ok { text := base.text, height := base.height, width := base.width,
                  percent := percent, box_extra_args := [toString percent],
                  stdin_events := [] }

/-- Embeds `WhiptailGaugeBox.update_percent` (whiptail_box.py lines
559-564): raise before touching the stream when the percent is above 100 or
below 0; otherwise store the percent, write the value as a
newline-terminated line and flush. -/
def update_percent (g : GaugeState) (percent : Int) : Except String GaugeState :=
  if percent > 100 ∨ percent < 0 then
    Except.error "percent must in 1..100!"
  else
    let events := g.stdin_events ++
      [StdinEvent.write (toString percent ++ "\n"), StdinEvent.flushStream]
    Except.ok { g with percent := percent, stdin_events := events }

/-- The command vector `WhiptailGaugeBox.listen` builds (whiptail_box.py
lines 536-549), identical in shape to the one `WhiptailBase.run` builds:
optional TERM override, the renderer name, the common option arguments, the
box flag, the `--` terminator, text, height, width and the trailing
arguments. -/
def gauge_listen_cmd (g : GaugeState) (a : WhiptailAttrs) (term_env : Option String) :
    List String :=
  (match term_env with
   | some t => ["TERM=" ++ t]
   | none => []) ++
  ["whiptail"] ++ build_whiptail_args a ++
  ["--gauge", "--", g.text, toString g.height, toString g.width] ++
  g.box_extra_args

/-- The runtime actions `WhiptailGaugeBox.listen` performs. -/
inductive ListenAction where
  /-- `subprocess.Popen(cmd, ...)`. -/
  | spawnProcess (cmd : List String)
  /-- `threading.Thread(target = self.start)`: the thread object is
  constructed and stored. -/
  | createThread
  /-- `thread.start()`: beginning execution of a second flow of control.
  The source never performs this action. -/
  | startThread
deriving DecidableEq, Repr

/-- Embeds `WhiptailGaugeBox.listen` (whiptail_box.py lines 535-552) as its
action trace: it spawns the child process and constructs the `Thread`
object whose target would wait on the child, then returns — without ever
starting that thread. -/
def gaugeBox_listen (g : GaugeState) (a : WhiptailAttrs) (term_env : Option String) :
    List ListenAction :=
  [ListenAction.spawnProcess (gauge_listen_cmd g a term_env),
   ListenAction.createThread]

/-- Whether an `Except` computation succeeded. -/
def isOkB {ε α : Type} : Except ε α → Bool
  | Except.ok _ => true
  | Except.error _ => false

end WhiptailTui

namespace WhiptailTui

theorem addFlag_eq (attr : Bool) (flag : String) (l : List String) :
    addFlag attr flag l = l ++ flagArg attr flag := by
  cases attr <;> simp [addFlag, flagArg]

theorem addOpt_eq (attr : Option String) (flag : String) (l : List String) :
    addOpt attr flag l = l ++ optArg attr flag := by
  cases attr <;> simp [addOpt, optArg]

theorem build_whiptail_args_eq_spec (a : WhiptailAttrs) :
    build_whiptail_args a = build_whiptail_args_spec a := by
  unfold build_whiptail_args build_whiptail_args_spec
  simp only [addFlag_eq, addOpt_eq, List.nil_append, List.append_assoc]

theorem dedup_length_eq_iff {l : List String} : l.dedup.length = l.length ↔ l.Nodup := by
  constructor
  · intro h
    have hs : List.Sublist l.dedup l := List.dedup_sublist l
    have he : l.dedup = l := hs.eq_of_length h
    rw [← he]
    exact List.nodup_dedup l
  · intro h
    rw [List.dedup_eq_self.mpr h]

theorem base_init_ok (box msg : String) (hh ww : Int) (ts : TermSize)
    (hbox : whiptail_box_name_list.contains box = true) :
    whiptailBase_init box msg (some hh) (some ww) ts =
      Except.ok { box := box, text := msg, height := hh, width := ww } := by
  have hmem : box ∈ whiptail_box_name_list := by
    simpa using hbox
  simp [whiptailBase_init, hbox, hmem]

/-- C1: for every invocation of `WhiptailBase.show`, exit code 0 calls the
positive hook with the captured payload, 1 the negative hook, 255 the
escape hook, and any other exit code raises an exception carrying that
code instead of calling any hook. -/
theorem C1_show_outcome_classification (r : Response) :
    (r.returncode = 0 → show_dispatch r = Except.ok (HookCall.onPositive r.value)) ∧
    (r.returncode = 1 → show_dispatch r = Except.ok HookCall.onNegative) ∧
    (r.returncode = 255 → show_dispatch r = Except.ok HookCall.onEsc) ∧
    (r.returncode ≠ 0 → r.returncode ≠ 1 → r.returncode ≠ 255 →
      show_dispatch r =
        Except.error ("unexpected Response return code " ++ toString r.returncode)) := by
  refine ⟨?_, ?_, ?_, ?_⟩
  · intro h
    simp [show_dispatch, POSITIVE_RETURN_CODE, h]
  · intro h
    simp [show_dispatch, POSITIVE_RETURN_CODE, NEGATIVE_RETURN_CODE, h]
  · intro h
    simp [show_dispatch, POSITIVE_RETURN_CODE, NEGATIVE_RETURN_CODE, ESC_RETURN_CODE, h]
  · intro h0 h1 h255
    simp [show_dispatch, POSITIVE_RETURN_CODE, NEGATIVE_RETURN_CODE, ESC_RETURN_CODE,
          h0, h1, h255]

theorem C1_show_outcome_classification_witness :
    show_dispatch ⟨0, "v"⟩ = Except.ok (HookCall.onPositive "v") ∧
    show_dispatch ⟨1, ""⟩ = Except.ok HookCall.onNegative ∧
    show_dispatch ⟨255, ""⟩ = Except.ok HookCall.onEsc ∧
    show_dispatch ⟨2, ""⟩ =
      Except.error ("unexpected Response return code " ++ toString (2 : Int)) :=
  ⟨(C1_show_outcome_classification ⟨0, "v"⟩).1 rfl,
   (C1_show_outcome_classification ⟨1, ""⟩).2.1 rfl,
   (C1_show_outcome_classification ⟨255, ""⟩).2.2.1 rfl,
   (C1_show_outcome_classification ⟨2, ""⟩).2.2.2 (by decide) (by decide) (by decide)⟩

/-- C2: `build_whiptail_args` is deterministic, emits no flag for a false or
absent option, and emits present options in exactly the declared order —
stated as equality to `build_whiptail_args_spec`, the spec-side vector
built as the ordered concatenation of per-option contributions that are
empty exactly for false/absent options. -/
theorem C2_argument_builder (a : WhiptailAttrs) :
    build_whiptail_args a = build_whiptail_args_spec a ∧
    ∀ b : WhiptailAttrs, b = a → build_whiptail_args b = build_whiptail_args a :=
  ⟨build_whiptail_args_eq_spec a, fun _ hb => by rw [hb]⟩

theorem C2_argument_builder_witness :
    build_whiptail_args initAttrs = build_whiptail_args_spec initAttrs ∧
    build_whiptail_args initAttrs = build_whiptail_args initAttrs :=
  ⟨(C2_argument_builder initAttrs).1, (C2_argument_builder initAttrs).2 initAttrs rfl⟩

/-- C3 counterexample: the claim says a gauge box whose initial percent
lies outside [0,100] fails to construct, but `WhiptailGaugeBox.__init__`
only checks the upper bound: construction with percent -1 (explicit
height and width, so the base constructor succeeds) returns normally. -/
theorem C3_gauge_negative_percent_counterexample :
    whiptailGaugeBox_init "m" (some 10) (some 40) (-1) ⟨80, 24⟩ =
      Except.ok { text := "m", height := 10, width := 40, percent := -1,
                  box_extra_args := ["-1"], stdin_events := [] } ∧
    (-1 : Int) < 0 :=
  ⟨rfl, by decide⟩

/-- C3 (amended): construction fails with an error exactly for duplicate
keys in a menu/checklist/radiolist/form item sequence, a gauge initial
percent strictly greater than 100 (a negative percent is accepted), and a
box-kind string outside the ten known kinds; with unique keys, a percent
at most 100, a known box kind and explicitly supplied height and width,
construction succeeds. -/
theorem C3_construction_errors_amended :
    (∀ (msg : String) (h w : Option Int) (p : String) (d : Bool)
       (items : List WhiptailMenuItem) (ts : TermSize),
       ¬ (items.map (fun item => item.key)).Nodup →
       isOkB (whiptailMenuBox_init msg h w p d items ts) = false) ∧
    (∀ (msg : String) (h w : Option Int) (p : String) (d : Bool)
       (items : List WhiptailSelectItem) (ts : TermSize),
       ¬ (items.map (fun item => item.key)).Nodup →
       isOkB (whiptailCheckListBox_init msg h w p d items ts) = false) ∧
    (∀ (msg : String) (h w : Option Int) (p : String) (d : Bool)
       (items : List WhiptailSelectItem) (ts : TermSize),
       ¬ (items.map (fun item => item.key)).Nodup →
       isOkB (whiptailRadioListBox_init msg h w p d items ts) = false) ∧
    (∀ (msg : String) (h w : Option Int) (items : List WhiptailFormItem)
       (sb : String) (ts : TermSize),
       ¬ (items.map (fun item => item.key)).Nodup →
       isOkB (whiptailFormBox_init msg h w items sb ts) = false) ∧
    (∀ (msg : String) (h w : Option Int) (percent : Int) (ts : TermSize),
       percent > 100 →
       isOkB (whiptailGaugeBox_init msg h w percent ts) = false) ∧
    (∀ (box text : String) (h w : Option Int) (ts : TermSize),
       whiptail_box_name_list.contains box = false →
       isOkB (whiptailBase_init box text h w ts) = false) ∧
    (∀ (msg : String) (hh ww : Int) (p : String) (d : Bool)
       (items : List WhiptailMenuItem) (ts : TermSize),
       (items.map (fun item => item.key)).Nodup →
       isOkB (whiptailMenuBox_init msg (some hh) (some ww) p d items ts) = true) ∧
    (∀ (msg : String) (hh ww : Int) (p : String) (d : Bool)
       (items : List WhiptailSelectItem) (ts : TermSize),
       (items.map (fun item => item.key)).Nodup →
       isOkB (whiptailCheckListBox_init msg (some hh) (some ww) p d items ts) = true) ∧
    (∀ (msg : String) (hh ww : Int) (p : String) (d : Bool)
       (items : List WhiptailSelectItem) (ts : TermSize),
       (items.map (fun item => item.key)).Nodup →
       isOkB (whiptailRadioListBox_init msg (some hh) (some ww) p d items ts) = true) ∧
    (∀ (msg : String) (hh ww : Int) (items : List WhiptailFormItem)
       (sb : String) (ts : TermSize),
       (items.map (fun item => item.key)).Nodup →
       isOkB (whiptailFormBox_init msg (some hh) (some ww) items sb ts) = true) ∧
    (∀ (msg : String) (hh ww : Int) (percent : Int) (ts : TermSize),
       percent ≤ 100 →
       isOkB (whiptailGaugeBox_init msg (some hh) (some ww) percent ts) = true) := by
  refine ⟨?_, ?_, ?_, ?_, ?_, ?_, ?_, ?_, ?_, ?_, ?_⟩
  · intro msg h w p d items ts hnd
    have hne : ((items.map (fun item => item.key)).dedup).length ≠ items.length := by
      intro heq
      exact hnd (dedup_length_eq_iff.mp
        (heq.trans (List.length_map items (fun item => item.key)).symm))
    simp only [whiptailMenuBox_init]
    split
    · rfl
    · rw [if_pos hne]
      rfl
  · intro msg h w p d items ts hnd
    have hne : ((items.map (fun item => item.key)).dedup).length ≠ items.length := by
      intro heq
      exact hnd (dedup_length_eq_iff.mp
        (heq.trans (List.length_map items (fun item => item.key)).symm))
    simp only [whiptailCheckListBox_init]
    split
    · rfl
    · rw [if_pos hne]
      rfl
  · intro msg h w p d items ts hnd
    have hne : ((items.map (fun item => item.key)).dedup).length ≠ items.length := by
      intro heq
      exact hnd (dedup_length_eq_iff.mp
        (heq.trans (List.length_map items (fun item => item.key)).symm))
    simp only [whiptailRadioListBox_init]
    split
    · rfl
    · rw [if_pos hne]
      rfl
  · intro msg h w items sb ts hnd
    have hne : ((items.map (fun item => item.key)).dedup).length ≠ items.length := by
      intro heq
      exact hnd (dedup_length_eq_iff.mp
        (heq.trans (List.length_map items (fun item => item.key)).symm))
    simp only [whiptailFormBox_init]
    split
    · rfl
    · rw [if_pos hne]
      rfl
  · intro msg h w percent ts hgt
    simp only [whiptailGaugeBox_init]
    split
    · rfl
    · rw [if_pos hgt]
      rfl
  · intro box text h w ts hbox
    simp only [whiptailBase_init]
    rw [if_pos hbox]
    rfl
  · intro msg hh ww p d items ts hnd
    have heq : ((items.map (fun item => item.key)).dedup).length = items.length := by
      rw [List.dedup_eq_self.mpr hnd, List.length_map]
    have hb := base_init_ok "menu" msg hh ww ts (by decide)
    simp only [whiptailMenuBox_init, hb]
    rw [if_neg (not_not_intro heq)]
    rfl
  · intro msg hh ww p d items ts hnd
    have heq : ((items.map (fun item => item.key)).dedup).length = items.length := by
      rw [List.dedup_eq_self.mpr hnd, List.length_map]
    have hb := base_init_ok "checklist" msg hh ww ts (by decide)
    simp only [whiptailCheckListBox_init, hb]
    rw [if_neg (not_not_intro heq)]
    rfl
  · intro msg hh ww p d items ts hnd
    have heq : ((items.map (fun item => item.key)).dedup).length = items.length := by
      rw [List.dedup_eq_self.mpr hnd, List.length_map]
    have hb := base_init_ok "radiolist" msg hh ww ts (by decide)
    simp only [whiptailRadioListBox_init, hb]
    rw [if_neg (not_not_intro heq)]
    rfl
  · intro msg hh ww items sb ts hnd
    have heq : ((items.map (fun item => item.key)).dedup).length = items.length := by
      rw [List.dedup_eq_self.mpr hnd, List.length_map]
    have hb := base_init_ok "menu" msg hh ww ts (by decide)
    simp only [whiptailFormBox_init, hb]
    rw [if_neg (not_not_intro heq)]
    rfl
  · intro msg hh ww percent ts hle
    have hb := base_init_ok "gauge" msg hh ww ts (by decide)
    simp only [whiptailGaugeBox_init, hb]
    rw [if_neg (by omega : ¬ (percent > 100))]
    rfl

/-- A throwaway form item used to instantiate the construction theorems. -/
def c3_form_item (k : String) : WhiptailFormItem :=
  { key := k, name := "n", password := false, value := "",
    validator := fun _ => true, error_message := "e" }

theorem C3_construction_errors_amended_witness :
    isOkB (whiptailMenuBox_init "m" (some 20) (some 60) "-" false
      [{ key := "a", description := "x" }, { key := "a", description := "y" }] ⟨80, 24⟩) = false ∧
    isOkB (whiptailCheckListBox_init "m" (some 20) (some 60) "-" false
      [whiptailSelectItem_init "a" "", whiptailSelectItem_init "a" ""] ⟨80, 24⟩) = false ∧
    isOkB (whiptailRadioListBox_init "m" (some 20) (some 60) "-" false
      [whiptailSelectItem_init "a" "", whiptailSelectItem_init "a" ""] ⟨80, 24⟩) = false ∧
    isOkB (whiptailFormBox_init "m" (some 20) (some 60)
      [c3_form_item "a", c3_form_item "a"] "submit" ⟨80, 24⟩) = false ∧
    isOkB (whiptailGaugeBox_init "m" (some 10) (some 40) 150 ⟨80, 24⟩) = false ∧
    isOkB (whiptailBase_init "bogus" "t" (some 10) (some 40) ⟨80, 24⟩) = false ∧
    isOkB (whiptailMenuBox_init "m" (some 20) (some 60) "-" false
      [{ key := "a", description := "x" }, { key := "b", description := "y" }] ⟨80, 24⟩) = true ∧
    isOkB (whiptailCheckListBox_init "m" (some 20) (some 60) "-" false
      [whiptailSelectItem_init "a" "", whiptailSelectItem_init "b" ""] ⟨80, 24⟩) = true ∧
    isOkB (whiptailRadioListBox_init "m" (some 20) (some 60) "-" false
      [whiptailSelectItem_init "a" "", whiptailSelectItem_init "b" ""] ⟨80, 24⟩) = true ∧
    isOkB (whiptailFormBox_init "m" (some 20) (some 60)
      [c3_form_item "a", c3_form_item "b"] "submit" ⟨80, 24⟩) = true ∧
    isOkB (whiptailGaugeBox_init "m" (some 10) (some 40) 50 ⟨80, 24⟩) = true :=
  ⟨C3_construction_errors_amended.1 "m" (some 20) (some 60) "-" false _ ⟨80, 24⟩ (by decide),
   C3_construction_errors_amended.2.1 "m" (some 20) (some 60) "-" false _ ⟨80, 24⟩ (by decide),
   C3_construction_errors_amended.2.2.1 "m" (some 20) (some 60) "-" false _ ⟨80, 24⟩ (by decide),
   C3_construction_errors_amended.2.2.2.1 "m" (some 20) (some 60) _ "submit" ⟨80, 24⟩ (by decide),
   C3_construction_errors_amended.2.2.2.2.1 "m" (some 10) (some 40) 150 ⟨80, 24⟩ (by decide),
   C3_construction_errors_amended.2.2.2.2.2.1 "bogus" "t" (some 10) (some 40) ⟨80, 24⟩ (by decide),
   C3_construction_errors_amended.2.2.2.2.2.2.1 "m" 20 60 "-" false _ ⟨80, 24⟩ (by decide),
   C3_construction_errors_amended.2.2.2.2.2.2.2.1 "m" 20 60 "-" false _ ⟨80, 24⟩ (by decide),
   C3_construction_errors_amended.2.2.2.2.2.2.2.2.1 "m" 20 60 "-" false _ ⟨80, 24⟩ (by decide),
   C3_construction_errors_amended.2.2.2.2.2.2.2.2.2.1 "m" 20 60 _ "submit" ⟨80, 24⟩ (by decide),
   C3_construction_errors_amended.2.2.2.2.2.2.2.2.2.2 "m" 10 40 50 ⟨80, 24⟩ (by decide)⟩

/-- C4: when height is unspecified the box resolves it from the terminal
geometry (margin 2, rounded down to a multiple of 5, positive on a normal
terminal); but when width is unspecified, `get_default_width` always
raises `NameError` — the source assigns to a misspelled undefined name —
so construction fails instead of completing as the claim states. -/
theorem C4_default_dimension_resolution :
    (∀ ts : TermSize,
      get_default_width ts = Except.error "NameError: name hewidthight is not defined") ∧
    get_default_height ⟨80, 24⟩ = 20 ∧ (0 : Int) < 20 ∧
    whiptailBase_init "msgbox" "hi" none (some 40) ⟨80, 24⟩ =
      Except.ok { box := "msgbox", text := "hi", height := 20, width := 40 } ∧
    whiptailBase_init "msgbox" "hi" (some 20) none ⟨80, 24⟩ =
      Except.error "NameError: name hewidthight is not defined" :=
  ⟨fun _ => rfl, rfl, by decide, rfl, rfl⟩

theorem findall_aux_skip (pre : List Char) (l : List Char)
    (hpre : ∀ c ∈ pre, c ≠ '"') :
    findall_quoted_aux (pre ++ l) none = findall_quoted_aux l none := by
  induction pre with
  | nil => rfl
  | cons c cs ih =>
    have hc : c ≠ '"' := hpre c (List.mem_cons_self c cs)
    have hcs : ∀ x ∈ cs, x ≠ '"' := fun x hx => hpre x (List.mem_cons_of_mem c hx)
    simp [findall_quoted_aux, hc, ih hcs]

theorem findall_aux_inside :
    ∀ (k : List Char) (acc rest : List Char), (∀ c ∈ k, c ≠ '"') →
    findall_quoted_aux (k ++ '"' :: rest) (some acc) =
      String.mk (acc ++ k) :: findall_quoted_aux rest none
  | [], acc, rest, _ => by simp [findall_quoted_aux]
  | c :: cs, acc, rest, hk => by
    have hc : c ≠ '"' := hk c (List.mem_cons_self c cs)
    have hcs : ∀ x ∈ cs, x ≠ '"' := fun x hx => hk x (List.mem_cons_of_mem c hx)
    have ih := findall_aux_inside cs (acc ++ [c]) rest hcs
    have step : findall_quoted_aux (c :: (cs ++ '"' :: rest)) (some acc) =
        findall_quoted_aux (cs ++ '"' :: rest) (some (acc ++ [c])) := by
      simp [findall_quoted_aux, hc]
    have hmk : acc ++ [c] ++ cs = acc ++ c :: cs := by simp
    rw [List.cons_append, step, ih, hmk]

/-- C5: the selected-key sequence a checklist passes to `on_submit` is
exactly the list of all double-quote-delimited substrings of the payload
in order of appearance: a quote-free padding followed by a quoted
quote-free segment contributes that segment and the scan continues after
it; a payload without quoted segments contributes nothing; and the payload
from the spec example parses to its two keys. -/
theorem C5_checklist_payload_parse :
    (findall_quoted "\"item1\" \"item3\"" = ["item1", "item3"]) ∧
    (∀ s : String, (∀ c ∈ s.data, c ≠ '"') → findall_quoted s = []) ∧
    (∀ pre k rest : List Char, (∀ c ∈ pre, c ≠ '"') → (∀ c ∈ k, c ≠ '"') →
      findall_quoted (String.mk (pre ++ '"' :: (k ++ '"' :: rest))) =
        String.mk k :: findall_quoted (String.mk rest)) := by
  refine ⟨rfl, ?_, ?_⟩
  · intro s hs
    have h := findall_aux_skip s.data [] hs
    simpa [findall_quoted, findall_quoted_aux] using h
  · intro pre k rest hpre hk
    show findall_quoted_aux (pre ++ '"' :: (k ++ '"' :: rest)) none = _
    rw [findall_aux_skip pre _ hpre]
    show findall_quoted_aux ('"' :: (k ++ '"' :: rest)) none = _
    simp only [findall_quoted_aux, if_pos rfl]
    rw [findall_aux_inside k [] rest hk]
    rfl

theorem C5_checklist_payload_parse_witness :
    findall_quoted "abc" = [] ∧
    findall_quoted (String.mk ['a', ' ', '"', 'k', '1', '"']) =
      String.mk ['k', '1'] :: findall_quoted (String.mk []) :=
  ⟨C5_checklist_payload_parse.2.1 "abc" (by decide),
   C5_checklist_payload_parse.2.2 ['a', ' '] ['k', '1'] [] (by decide) (by decide)⟩

/-- C6: on an input-box positive payload rejected by the validator, the
handler shows an error message box with the configured error message, then
re-shows the input request, and still calls `on_submit` with the invalid
payload afterwards; on an accepted payload it calls `on_submit` once with
no error box; in both cases `on_submit` fires exactly once. -/
theorem C6_input_validation_retry (b : InputBoxState) (value : String) :
    (b.validator value = false →
      inputBox_on_positive_event_triggered b value =
        [InputEffect.showMessageBox b.error_message b.height b.width,
         InputEffect.refresh, InputEffect.submit value]) ∧
    (b.validator value = true →
      inputBox_on_positive_event_triggered b value = [InputEffect.submit value]) ∧
    (inputBox_on_positive_event_triggered b value).count (InputEffect.submit value) = 1 := by
  refine ⟨fun h => ?_, fun h => ?_, ?_⟩
  · simp [inputBox_on_positive_event_triggered, h]
  · simp [inputBox_on_positive_event_triggered, h]
  · cases hv : b.validator value <;>
      simp [inputBox_on_positive_event_triggered, hv, List.count_cons, List.count_nil]

/-- An input box with a concrete validator, used to instantiate C6. -/
def c6_box : InputBoxState :=
  { height := 20, width := 40, validator := fun s => s == "ok",
    error_message := "invalid input!" }

theorem C6_input_validation_retry_witness :
    inputBox_on_positive_event_triggered c6_box "bad" =
      [InputEffect.showMessageBox "invalid input!" 20 40, InputEffect.refresh,
       InputEffect.submit "bad"] ∧
    inputBox_on_positive_event_triggered c6_box "ok" = [InputEffect.submit "ok"] :=
  ⟨(C6_input_validation_retry c6_box "bad").1 rfl,
   (C6_input_validation_retry c6_box "ok").2.1 rfl⟩

/-- C7 (amended): on a form positive payload, the empty sentinel key
submits one name/trimmed-value record per item and terminates; a key
matching an item opens a line-input seeded with that item's current value
trimmed of surrounding whitespace together with its validator and password
flag, overwrites the item's value with the entered text on the inner
positive outcome, rebuilds the menu trailing arguments from current item
state and re-shows; a non-sentinel key matching no item raises. -/
theorem C7_form_positive_flow_amended (f : FormBoxState) (value : String)
    (inner : Response) :
    (value = "" →
      formBox_on_positive_event_triggered f value inner =
        Except.ok
          ([FormEffect.submitForm (f.items.map (fun item => (item.name, py_strip item.value)))],
           f)) ∧
    (∀ item : WhiptailFormItem, value ≠ "" →
      f.items.find? (fun it => it.key == value) = some item →
      inner.returncode = 0 →
      formBox_on_positive_event_triggered f value inner =
        Except.ok
          ([FormEffect.showInputBox item.key f.height f.width (py_strip item.value)
              item.password item.validator item.error_message,
            FormEffect.setItemValue item.key inner.value,
            FormEffect.refreshShow (formBox_refresh_args
              { f with items := set_item_value f.items item.key inner.value })],
           { f with items := set_item_value f.items item.key inner.value,
                    box_extra_args := formBox_refresh_args
                      { f with items := set_item_value f.items item.key inner.value } })) ∧
    (value ≠ "" → f.items.find? (fun it => it.key == value) = none →
      formBox_on_positive_event_triggered f value inner =
        Except.error ("unknown form key: " ++ value)) := by
  refine ⟨fun h => ?_, fun item hne hfind hrc => ?_, fun hne hfind => ?_⟩
  · simp [formBox_on_positive_event_triggered, h]
  · simp only [formBox_on_positive_event_triggered]
    rw [if_neg hne, hfind]
    simp [hrc, POSITIVE_RETURN_CODE]
  · simp only [formBox_on_positive_event_triggered]
    rw [if_neg hne, hfind]

/-- The always-accepting validator of the concrete C7 form. -/
def c7_validator : String → Bool := fun _ => true

/-- A concrete form whose single item holds a value with surrounding
whitespace, used to instantiate C7. -/
def c7_form : FormBoxState :=
  { text := "form", height := 20, width := 40, pfx := "-",
    items := [{ key := "k1", name := "user", password := false, value := " x ",
                validator := c7_validator, error_message := "invalid input!" }],
    submit_button := "submit", box_extra_args := [] }

/-- C7 counterexample: the claim says the edit line-input is seeded with
the item's current value, but the source seeds it with the stripped value:
for the item whose current value is the string space-x-space, the opened
input box's placeholder is the one-character string x, a different
string. -/
theorem C7_form_placeholder_counterexample :
    formBox_on_positive_event_triggered c7_form "k1" ⟨0, "y"⟩ =
      Except.ok
        ([FormEffect.showInputBox "k1" 20 40 "x" false c7_validator "invalid input!",
          FormEffect.setItemValue "k1" "y",
          FormEffect.refreshShow ["10", "k1", "- y", "", "[submit]"]],
         { text := "form", height := 20, width := 40, pfx := "-",
           items := [{ key := "k1", name := "user", password := false, value := "y",
                       validator := c7_validator, error_message := "invalid input!" }],
           submit_button := "submit",
           box_extra_args := ["10", "k1", "- y", "", "[submit]"] }) ∧
    FormEffect.showInputBox "k1" 20 40 "x" false c7_validator "invalid input!" ≠
      FormEffect.showInputBox "k1" 20 40 " x " false c7_validator "invalid input!" := by
  refine ⟨rfl, fun h => ?_⟩
  injection h with h1 h2 h3 h4
  exact absurd h4 (by decide)

theorem C7_form_positive_flow_amended_witness :
    formBox_on_positive_event_triggered c7_form "" ⟨0, ""⟩ =
      Except.ok ([FormEffect.submitForm [("user", "x")]], c7_form) ∧
    formBox_on_positive_event_triggered c7_form "zz" ⟨0, ""⟩ =
      Except.error "unknown form key: zz" :=
  ⟨(C7_form_positive_flow_amended c7_form "" ⟨0, ""⟩).1 rfl,
   (C7_form_positive_flow_amended c7_form "zz" ⟨0, ""⟩).2.2 (by decide) rfl⟩

/-- C8: `update_percent` rejects a percent outside [0,100] before writing
anything to the child's input stream, and for an in-range percent appends
exactly the newline-terminated percent line followed by a flush; two
consecutive updates with 42 and 43 append exactly the two lines in call
order, each flushed. -/
theorem C8_update_percent_stream (g : GaugeState) (p : Int) :
    (p < 0 ∨ p > 100 → update_percent g p = Except.error "percent must in 1..100!") ∧
    (0 ≤ p → p ≤ 100 →
      update_percent g p = Except.ok
        { g with percent := p,
                 stdin_events := g.stdin_events ++
                   [StdinEvent.write (toString p ++ "\n"), StdinEvent.flushStream] }) ∧
    ((update_percent g 42).bind (fun g1 => update_percent g1 43) =
      Except.ok
        { g with percent := 43,
                 stdin_events := g.stdin_events ++
                   [StdinEvent.write "42\n", StdinEvent.flushStream,
                    StdinEvent.write "43\n", StdinEvent.flushStream] }) := by
  refine ⟨fun h => ?_, fun h0 h100 => ?_, ?_⟩
  · rw [update_percent, if_pos (h.elim Or.inr Or.inl)]
  · rw [update_percent, if_neg (by omega : ¬ (p > 100 ∨ p < 0))]
  · have h42 : (toString (42 : Int) ++ "\n") = "42\n" := rfl
    have h43 : (toString (43 : Int) ++ "\n") = "43\n" := rfl
    simp [update_percent, Except.bind, List.append_assoc, h42, h43]

theorem C8_update_percent_stream_witness :
    update_percent { text := "t", height := 10, width := 40, percent := 0,
                     box_extra_args := ["0"], stdin_events := [] } 150 =
      Except.error "percent must in 1..100!" ∧
    update_percent { text := "t", height := 10, width := 40, percent := 0,
                     box_extra_args := ["0"], stdin_events := [] } 42 =
      Except.ok { text := "t", height := 10, width := 40, percent := 42,
                  box_extra_args := ["0"],
                  stdin_events := [StdinEvent.write "42\n", StdinEvent.flushStream] } :=
  ⟨(C8_update_percent_stream _ 150).1 (Or.inr (by decide)),
   (C8_update_percent_stream _ 42).2.1 (by decide) (by decide)⟩

/-- C9: `listen` spawns the child process and constructs the `Thread`
object targeting the completion waiter, but it never performs the
thread-start action, so no second flow of control ever waits on the
child's termination — contrary to the claim. -/
theorem C9_listen_never_starts_thread (g : GaugeState) (a : WhiptailAttrs)
    (term_env : Option String) :
    gaugeBox_listen g a term_env =
      [ListenAction.spawnProcess (gauge_listen_cmd g a term_env),
       ListenAction.createThread] ∧
    ListenAction.createThread ∈ gaugeBox_listen g a term_env ∧
    ListenAction.startThread ∉ gaugeBox_listen g a term_env := by
  refine ⟨rfl, by simp [gaugeBox_listen], ?_⟩
  simp [gaugeBox_listen]

theorem map_const_replicate {α β : Type} (b : β) :
    ∀ l : List α, l.map (fun _ => b) = List.replicate l.length b
  | [] => rfl
  | x :: xs => by simp [map_const_replicate b xs, List.replicate]

/-- C10: a freshly constructed `WhiptailSelectItem` has `selected = False`
(the constructor takes only key and description), so a checklist or
radiolist built from freshly constructed items emits the status string
OFF for every item in its trailing arguments. -/
theorem C10_select_item_default_off :
    (∀ key description : String,
      (whiptailSelectItem_init key description).selected = false) ∧
    (∀ (p : String) (d : Bool) (kd : List (String × String)),
      (select_item_triples p d
        (kd.map (fun x => whiptailSelectItem_init x.1 x.2))).map (fun t => t.2.2) =
        List.replicate kd.length "OFF") ∧
    (∀ (p : String) (d : Bool) (kd : List (String × String)),
      select_item_args p d (kd.map (fun x => whiptailSelectItem_init x.1 x.2)) =
        (kd.map (fun x =>
          [x.1, if d then p ++ " " ++ x.2 else "", "OFF"])).flatten) := by
  refine ⟨fun key description => rfl, fun p d kd => ?_, fun p d kd => ?_⟩
  · simp only [select_item_triples, whiptailSelectItem_init, List.map_map]
    exact map_const_replicate "OFF" kd
  · simp only [select_item_args, select_item_triples, whiptailSelectItem_init,
      List.map_map]
    rfl

end WhiptailTui
